import Mathlib

/-!
Shallow embedding of the building-tileset pipeline of
`skyline_agent/threed_tiles_utils.py`:

* `create_glb_from_building` (mesh builder, lines 29-150), and
* `generate_building_tileset` (tileset assembler, lines 233-400).

Conventions of the embedding:

* Python floats are modelled as rationals (`ℚ`).  The single place where the
  IEEE special values NaN and ±infinity are behaviourally relevant — the
  `height <= 0` guard — is modelled exactly with the type `FVal` below,
  whose comparison `fle` follows IEEE-754 semantics (`NaN <= x` is false).
* External library calls (shapely validity, trimesh triangulation,
  watertightness test, hole filling, GLB export) and the file system are
  modelled as oracle structures (`MeshEnv`, `IOEnv`) passed explicitly;
  the control flow around them is taken verbatim from the source.
* Each `return None` site of `create_glb_from_building` is kept as a
  distinct `Rejection` constructor so that the reason for a rejection is
  observable; the code itself distinguishes those sites only in its log
  messages.
* A Python exception that would propagate out of a function is modelled by
  the `Except PyErr` layer; an exception caught by a `try/except` block of
  the source is converted inside the definition, exactly where the source
  catches it.
-/

/-- Python error value (the message carried by a raised exception). -/
abbrev PyErr := String

/-- A Python float at the points where IEEE special values matter:
either a finite value (modelled as a rational) or NaN / +inf / -inf. -/
inductive FVal where
  | fin (q : ℚ)
  | nan
  | inf
  | ninf
deriving DecidableEq, Repr

/-- IEEE-754 `<=` on Python floats: any comparison with NaN is false,
`-inf` is below everything else, `+inf` above everything else. -/
def fle : FVal → FVal → Bool
  | FVal.nan, _ => false
  | _, FVal.nan => false
  | FVal.ninf, _ => true
  | _, FVal.ninf => false
  | _, FVal.inf => true
  | FVal.inf, _ => false
  | FVal.fin a, FVal.fin b => a ≤ b

/-- Python `min` over a nonempty list (left fold of binary `min` over the
first element); the empty case never arises in the source because the
aggregation branch is guarded by nonemptiness (line 346). -/
def pyMin : List ℚ → ℚ
  | [] => 0
  | x :: xs => xs.foldl min x

/-- Python `max` over a nonempty list, same convention as `pyMin`. -/
def pyMax : List ℚ → ℚ
  | [] => 0
  | x :: xs => xs.foldl max x

/-- An axis-aligned bounding box in the py3dtiles 12-float layout
`[cx, cy, cz, ex, 0, 0, 0, ey, 0, 0, 0, ez]`; only the six meaningful
entries are carried, the off-diagonal entries of the half-axis matrix are
always written as zero by the source (lines 322-327, 372-377). -/
structure Box where
  cx : ℚ
  cy : ℚ
  cz : ℚ
  ex : ℚ
  ey : ℚ
  ez : ℚ
deriving DecidableEq, Repr

/-- Minimal x coordinate of a box, `b[0] - b[3]` in the source (line 356). -/
def boxMinX (b : Box) : ℚ := b.cx - b.ex

/-- Minimal y coordinate of a box, `b[1] - b[7]` (line 357). -/
def boxMinY (b : Box) : ℚ := b.cy - b.ey

/-- Minimal z coordinate of a box, `b[2] - b[11]` (line 358). -/
def boxMinZ (b : Box) : ℚ := b.cz - b.ez

/-- Maximal x coordinate of a box, `b[0] + b[3]` (line 360). -/
def boxMaxX (b : Box) : ℚ := b.cx + b.ex

/-- Maximal y coordinate of a box, `b[1] + b[7]` (line 361). -/
def boxMaxY (b : Box) : ℚ := b.cy + b.ey

/-- Maximal z coordinate of a box, `b[2] + b[11]` (line 362). -/
def boxMaxZ (b : Box) : ℚ := b.cz + b.ez

/-- Root bounding box aggregation of `generate_building_tileset`
(lines 346-383): per-axis min of `center − extent` and max of
`center + extent` over the child boxes, root center the midpoint and root
extent half the span; for an empty child list the default unit box at the
origin of line 383 (`[0,0,0, 1,0,0, 0,1,0, 0,0,1]`). -/
def rootBox (l : List Box) : Box :=
  match l with
  | [] => ⟨0, 0, 0, 1, 1, 1⟩
  | _ :: _ =>
    let minOX := pyMin (l.map boxMinX)
    let minOY := pyMin (l.map boxMinY)
    let minOZ := pyMin (l.map boxMinZ)
    let maxOX := pyMax (l.map boxMaxX)
    let maxOY := pyMax (l.map boxMaxY)
    let maxOZ := pyMax (l.map boxMaxZ)
    { cx := (minOX + maxOX) / 2
      cy := (minOY + maxOY) / 2
      cz := (minOZ + maxOZ) / 2
      ex := (maxOX - minOX) / 2
      ey := (maxOY - minOY) / 2
      ez := (maxOZ - minOZ) / 2 }

/-- A scalar attribute value carried in the per-building attribute
mapping (`attributes` dict of the source). -/
inductive AttrVal where
  | s (v : String)
  | n (q : ℚ)
  | idx (i : ℕ)
deriving DecidableEq, Repr

/-- A shapely polygon as the source observes it: the exterior ring
`exterior.coords` (a closed ring, last point repeating the first, as
shapely always reports it) together with the result of the external
`is_valid` predicate, carried as data because shapely's geometry validity
test is a library call outside this repository. -/
structure PolyG where
  ring : List (ℚ × ℚ)
  valid : Bool
deriving DecidableEq, Repr

/-- The geometry object handed to the mesh builder: either a shapely
Polygon or some other geometry type (`isinstance(building_polygon,
Polygon)` failing, line 41). -/
inductive Geom where
  | poly (p : PolyG)
  | nonPoly
deriving DecidableEq, Repr

/-- A vertex of the extruded solid: planar coordinates and a z value
(the z value is `0` for the bottom ring and the building height for the
top ring, hence an `FVal`). -/
abbrev Vert := ℚ × ℚ × FVal

/-- A triangle as an index triple into the vertex list. -/
abbrev Tri := ℕ × ℕ × ℕ

/-- The trimesh mesh object as far as the source manipulates it:
vertex list, face list, metadata mapping (lines 117, 129-133). -/
structure Mesh where
  vertices : List Vert
  faces : List Tri
  metadata : List (String × AttrVal)
deriving DecidableEq, Repr

/-- GLB bytes, modelled as the faithfully serialized mesh
(`mesh.export(file_type='glb')`, line 139; the export is lossless for
the data the claims observe). -/
structure Glb where
  mesh : Mesh
deriving DecidableEq, Repr

/-- Oracle for the external library calls made by the mesh builder:
trimesh triangulation (which may raise), the watertightness test, the
hole-filling repair and a possible exception from GLB export. -/
structure MeshEnv where
  triangulate : List (ℚ × ℚ) → Except PyErr (List Tri)
  isWatertight : Mesh → Bool
  fillHoles : Mesh → Mesh
  exportRaises : Mesh → Option PyErr

/-- The distinct `return None` sites of `create_glb_from_building`,
distinguishable in the source only through their log messages. -/
inductive Rejection where
  | notAPolygon          -- line 41: not a shapely Polygon
  | invalidGeometry      -- line 44: `is_valid` false
  | invalidHeight        -- line 47: `height <= 0`
  | tooFewPoints         -- line 55: closed ring shorter than 4 points
  | tooFewUniquePoints   -- line 62: fewer than 3 unique points
  | caughtException (e : PyErr)  -- line 148: exception caught in the try block
deriving DecidableEq, Repr

/-- Result of one mesh-builder call: either GLB bytes or a rejection. -/
inductive GlbResult where
  | ok (g : Glb)
  | rejected (r : Rejection)
deriving DecidableEq, Repr

/-- Observable outcome of one `create_glb_from_building` call: the result
plus a trace of the external effects the claims talk about — how many
triangulation calls were made, how many `fill_holes` repair passes ran,
and whether the not-watertight diagnostic of line 124 was logged. -/
structure CreateOut where
  result : GlbResult
  triangulateCalls : ℕ
  fillHolesCalls : ℕ
  warnedNotWatertight : Bool
deriving DecidableEq, Repr

/-- Wall faces of the extruded solid (lines 76-90): for each boundary
edge `i → (i+1) % n` two triangles joining the bottom ring (indices
`0..n-1`) to the top ring (indices `n..2n-1`). -/
def wallFaces (n : ℕ) : List Tri :=
  (List.range n).flatMap fun i =>
    [(i, (i + 1) % n, (i + 1) % n + n), (i, (i + 1) % n + n, i + n)]

/-- The assembled solid of lines 66-117: bottom ring at z = 0, top ring
at z = height, wall faces, the floor triangulation with reversed winding
(line 103) and the roof triangulation offset by `n` (line 112);
the fresh trimesh object starts with empty metadata. -/
def assembledMesh (unique : List (ℚ × ℚ)) (height : FVal) (tris : List Tri) : Mesh :=
  let n := unique.length
  let bottom := unique.map fun v => (v.1, v.2, FVal.fin 0)
  let top := unique.map fun v => (v.1, v.2, height)
  let floorFaces := tris.map fun t => (t.2.2, t.2.1, t.1)
  let roofFaces := tris.map fun t => (t.1 + n, t.2.1 + n, t.2.2 + n)
  { vertices := bottom ++ top
    faces := wallFaces n ++ floorFaces ++ roofFaces
    metadata := [] }

/-- The watertightness check and repair of lines 119-126: when the
assembled mesh is not watertight run one `fill_holes` pass; the result
carries the (possibly repaired) mesh, the number of repair passes run,
and whether the line-124 diagnostic — still not watertight after the
repair — was logged. -/
def repairWatertight (menv : MeshEnv) (mesh0 : Mesh) : Mesh × ℕ × Bool :=
  if menv.isWatertight mesh0 then (mesh0, 0, false)
  else (menv.fillHoles mesh0, 1, !menv.isWatertight (menv.fillHoles mesh0))

/-- The attribute attachment of lines 129-133: `mesh.metadata` is updated
with the attribute mapping only when the mapping is nonempty (Python dict
truthiness of `if attributes:`). -/
def withAttrs (attributes : List (String × AttrVal)) (m : Mesh) : Mesh :=
  if attributes = [] then m
  else { m with metadata := m.metadata ++ attributes }

/-- `create_glb_from_building` (lines 29-150).  The `Except PyErr` layer
records whether an exception would propagate to the caller; every
exception raised inside the `try` block of line 51 is caught at line 148
and turned into a `Rejection.caughtException`, so no branch of this
definition produces `.error`.  The guards of lines 41-49 precede the
`try` block and perform no raisable operation.  The height comparison of
line 47 is the IEEE comparison `fle`.  Trimesh's triangulation is called
twice with the same input (floor, line 98, and roof, line 108); the
watertightness check and at most one `fill_holes` pass are
`repairWatertight`; the attribute mapping is attached by `withAttrs`;
export is line 139. -/
def create_glb_from_building (menv : MeshEnv) (geom : Geom) (height : FVal)
    (attributes : List (String × AttrVal)) : Except PyErr CreateOut :=
  match geom with
  | Geom.nonPoly => Except.ok ⟨GlbResult.rejected Rejection.notAPolygon, 0, 0, false⟩
  | Geom.poly p =>
    if p.valid = false then
      Except.ok ⟨GlbResult.rejected Rejection.invalidGeometry, 0, 0, false⟩
    else if fle height (FVal.fin 0) then
      Except.ok ⟨GlbResult.rejected Rejection.invalidHeight, 0, 0, false⟩
    else if p.ring.length < 4 then
      Except.ok ⟨GlbResult.rejected Rejection.tooFewPoints, 0, 0, false⟩
    else if p.ring.dropLast.length < 3 then
      Except.ok ⟨GlbResult.rejected Rejection.tooFewUniquePoints, 0, 0, false⟩
    else
      match menv.triangulate p.ring.dropLast with
      | Except.error e =>
        Except.ok ⟨GlbResult.rejected (Rejection.caughtException e), 1, 0, false⟩
      | Except.ok tris =>
        match menv.triangulate p.ring.dropLast with
        | Except.error e =>
          Except.ok ⟨GlbResult.rejected (Rejection.caughtException e), 2, 0, false⟩
        | Except.ok _tris2 =>
          match repairWatertight menv (assembledMesh p.ring.dropLast height tris) with
          | (m1, fills, warned) =>
            match menv.exportRaises (withAttrs attributes m1) with
            | some e =>
              Except.ok ⟨GlbResult.rejected (Rejection.caughtException e), 2,
                fills, warned⟩
            | none =>
              Except.ok ⟨GlbResult.ok ⟨withAttrs attributes m1⟩, 2, fills, warned⟩

/-- One row of the building GeoDataFrame as `generate_building_tileset`
reads it: the geometry object, the outcome of `float(building[height_column])`
(`none` models the ValueError/TypeError/KeyError caught at line 275; the
finite-float idealisation is used here, non-finite parses are treated in
the mesh-builder model), the optional `id` column value and the optional
`name` column value. -/
structure Feature where
  geom : Geom
  heightParse : Option ℚ
  idAttr : Option AttrVal
  nameAttr : Option AttrVal
deriving DecidableEq, Repr

/-- Exterior ring of a feature's geometry (empty for a non-polygon;
only read on code paths where the geometry is a polygon). -/
def featureRing (f : Feature) : List (ℚ × ℚ) :=
  match f.geom with
  | Geom.poly p => p.ring
  | Geom.nonPoly => []

/-- shapely `polygon.bounds` (line 311): `(minx, miny, maxx, maxy)` over
the exterior ring coordinates. -/
def ringBounds (ring : List (ℚ × ℚ)) : ℚ × ℚ × ℚ × ℚ :=
  (pyMin (ring.map Prod.fst), pyMin (ring.map Prod.snd),
   pyMax (ring.map Prod.fst), pyMax (ring.map Prod.snd))

/-- The attribute mapping assembled at lines 280-282: always `id` (the
`id` column if present, else the row index) and `original_index`, plus
`name` when that column is present. -/
def buildAttrs (i : ℕ) (f : Feature) : List (String × AttrVal) :=
  [("id", f.idAttr.getD (AttrVal.idx i)), ("original_index", AttrVal.idx i)] ++
    (match f.nameAttr with
     | some v => [("name", v)]
     | none => [])

/-- The data from which one child tile is built (lines 311-335): the row
index (used for the content file name `building_<index>.b3dm`), the
planar bounds of the footprint and the parsed height. -/
structure ChildSrc where
  idx : ℕ
  minx : ℚ
  miny : ℚ
  maxx : ℚ
  maxy : ℚ
  h : ℚ
deriving DecidableEq, Repr

/-- The child tile's bounding box (lines 311-328): center at the middle
of the planar bounds and at `height / 2`, half-extents half the planar
spans and `height / 2`. -/
def childBox (c : ChildSrc) : Box :=
  { cx := (c.minx + c.maxx) / 2
    cy := (c.miny + c.maxy) / 2
    cz := c.h / 2
    ex := (c.maxx - c.minx) / 2
    ey := (c.maxy - c.miny) / 2
    ez := c.h / 2 }

/-- Oracle for the file-system operations of the assembler: whether the
`os.makedirs` calls of lines 255-256 succeed, whether the write of the
b3dm tile file for a given row index succeeds (lines 297-300) and
whether `ts.write_to_file` succeeds (line 393). -/
structure IOEnv where
  mkdirOk : Bool
  writeTile : ℕ → Bool
  writeTilesetOk : Bool

/-- Per-feature step of the assembler loop (lines 266-338).  Returns the
row index of the tile file written (if any) and the child tile data
appended (if any).  A feature is skipped — `(none, none)` — when the
height fails to parse (line 275), when the parsed height is non-positive
(line 272), when the mesh builder returns no GLB (line 286), or when the
b3dm file write fails, because that failure is caught by the inner
`try/except` of lines 297-303 and answered with `continue`. -/
def processFeature (env : IOEnv) (menv : MeshEnv) (i : ℕ) (f : Feature) :
    Option ℕ × Option ChildSrc :=
  match f.heightParse with
  | none => (none, none)
  | some h =>
    if h ≤ 0 then (none, none)
    else
      match create_glb_from_building menv f.geom (FVal.fin h) (buildAttrs i f) with
      | Except.ok out =>
        match out.result with
        | GlbResult.ok _ =>
          if env.writeTile i then
            let b := ringBounds (featureRing f)
            (some i, some ⟨i, b.1, b.2.1, b.2.2.1, b.2.2.2, h⟩)
          else (none, none)
        | GlbResult.rejected _ => (none, none)
      | Except.error _ => (none, none)

/-- Observable outcome of one `generate_building_tileset` call: the
boolean return value, the row indices whose tile files were written, the
child tiles accumulated, the root bounding box recorded in the written
descriptor (`none` when the descriptor was not written) and whether the
descriptor file was written. -/
structure GenOut where
  success : Bool
  tilesWritten : List ℕ
  children : List ChildSrc
  writtenRootBox : Option Box
  descriptorWritten : Bool
deriving DecidableEq, Repr

/-- `generate_building_tileset` (lines 233-400).  The whole body sits in
the `try` block of line 252 whose `except` at lines 398-400 returns
`False`, so no exception ever propagates (every branch is `.ok`).  A
failing `os.makedirs` raises and is caught there, producing `False` with
nothing written; a failing `ts.write_to_file` likewise produces `False`,
after the tile files of the loop have already been written.  The root
bounding box is `rootBox` over the children's boxes (lines 346-378), the
default unit box of line 383 when no child was produced. -/
def generate_building_tileset (env : IOEnv) (menv : MeshEnv)
    (features : List Feature) : Except PyErr GenOut :=
  if env.mkdirOk = false then
    Except.ok ⟨false, [], [], none, false⟩
  else
    let results := features.enum.map fun p => processFeature env menv p.1 p.2
    let tiles := results.filterMap Prod.fst
    let children := results.filterMap Prod.snd
    let rbox := rootBox (children.map childBox)
    if env.writeTilesetOk then
      Except.ok ⟨true, tiles, children, some rbox, true⟩
    else
      Except.ok ⟨false, tiles, children, none, false⟩

/-- The boolean value `generate_building_tileset` returns to its caller. -/
def generateSuccess (env : IOEnv) (menv : MeshEnv) (features : List Feature) : Bool :=
  match generate_building_tileset env menv features with
  | Except.ok out => out.success
  | Except.error _ => false

/-- The children accumulated by a `generate_building_tileset` run. -/
def generateChildren (env : IOEnv) (menv : MeshEnv) (features : List Feature) :
    List ChildSrc :=
  match generate_building_tileset env menv features with
  | Except.ok out => out.children
  | Except.error _ => []

/-- The tile files written by a `generate_building_tileset` run. -/
def generateTiles (env : IOEnv) (menv : MeshEnv) (features : List Feature) : List ℕ :=
  match generate_building_tileset env menv features with
  | Except.ok out => out.tilesWritten
  | Except.error _ => []

/-- The root bounding box recorded in the written descriptor of a
`generate_building_tileset` run, `none` when no descriptor was written. -/
def generateRootBox (env : IOEnv) (menv : MeshEnv) (features : List Feature) :
    Option Box :=
  match generate_building_tileset env menv features with
  | Except.ok out => out.writtenRootBox
  | Except.error _ => none

/-- The raw leaf geometric error of line 334: a tenth of the planar
diagonal of the footprint's bounds,
`np.sqrt((maxx - minx)**2 + (maxy - miny)**2) / 10.0`. -/
noncomputable def childGeRaw (c : ChildSrc) : ℝ :=
  Real.sqrt (((c.maxx : ℝ) - (c.minx : ℝ)) ^ 2 +
    ((c.maxy : ℝ) - (c.miny : ℝ)) ^ 2) / 10

/-- The leaf geometric error assigned to a child tile (line 335):
the raw heuristic, replaced by `1.0` when it is not strictly positive. -/
noncomputable def childGeometricError (c : ChildSrc) : ℝ :=
  if 0 < childGeRaw c then childGeRaw c else 1

/-- The root geometric error of lines 380 and 384: twice the root box's
half-diagonal when children exist, the default `100` otherwise. -/
noncomputable def rootGeometricError (l : List Box) : ℝ :=
  match l with
  | [] => 100
  | _ :: _ =>
    Real.sqrt (((rootBox l).ex : ℝ) ^ 2 + ((rootBox l).ey : ℝ) ^ 2 +
      ((rootBox l).ez : ℝ) ^ 2) * 2

/-- A mesh-library oracle for concrete test runs: triangulation succeeds
with the two triangles of a convex quadrilateral, every mesh is reported
watertight, hole filling is the identity, export never raises. -/
def benignMenv : MeshEnv :=
  { triangulate := fun _ => Except.ok [(0, 1, 2), (0, 2, 3)]
    isWatertight := fun _ => true
    fillHoles := id
    exportRaises := fun _ => none }

/-- A file-system oracle where every operation succeeds. -/
def benignEnv : IOEnv :=
  { mkdirOk := true, writeTile := fun _ => true, writeTilesetOk := true }

/-- The closed exterior ring of the square footprint
`(0,0)-(0,10)-(10,10)-(10,0)` of the spec's Scenario A. -/
def squareRing : List (ℚ × ℚ) := [(0, 0), (0, 10), (10, 10), (10, 0), (0, 0)]

/-- The square footprint as a valid shapely polygon. -/
def squareGeom : Geom := Geom.poly ⟨squareRing, true⟩

/-- A feature row carrying the square footprint with a given parsed height. -/
def squareFeature (h : ℚ) : Feature :=
  { geom := squareGeom, heightParse := some h, idAttr := none, nameAttr := none }

/-- A second, disjoint square footprint `(20,20)-(30,30)` as a feature. -/
def squareFeature2 (h : ℚ) : Feature :=
  { geom := Geom.poly ⟨[(20, 20), (20, 30), (30, 30), (30, 20), (20, 20)], true⟩
    heightParse := some h, idAttr := none, nameAttr := none }

/-- The `GlbResult` of a mesh-builder call, `none` if an exception
propagated. -/
def resultOf (r : Except PyErr CreateOut) : Option GlbResult :=
  match r with
  | Except.ok o => some o.result
  | Except.error _ => none

/-- Whether a mesh-builder call handed GLB bytes back to its caller. -/
def producedGlb (r : Except PyErr CreateOut) : Bool :=
  match resultOf r with
  | some (GlbResult.ok _) => true
  | _ => false

/-- The rejection reason of a mesh-builder call, if it rejected. -/
def rejectionOf (r : Except PyErr CreateOut) : Option Rejection :=
  match resultOf r with
  | some (GlbResult.rejected rej) => some rej
  | _ => none

/-- How many `fill_holes` repair passes a mesh-builder call ran. -/
def fillCallsOf (r : Except PyErr CreateOut) : Option ℕ :=
  match r with
  | Except.ok o => some o.fillHolesCalls
  | Except.error _ => none

/-- Whether a mesh-builder call logged the line-124 diagnostic that the
mesh is still not watertight after the repair pass. -/
def warnedOf (r : Except PyErr CreateOut) : Option Bool :=
  match r with
  | Except.ok o => some o.warnedNotWatertight
  | Except.error _ => none

/-- The metadata keys of the GLB a mesh-builder call produced. -/
def metadataKeys (r : Except PyErr CreateOut) : Option (List String) :=
  match resultOf r with
  | some (GlbResult.ok g) => some (g.mesh.metadata.map Prod.fst)
  | _ => none

/-- Whether the run wrote the tileset descriptor file. -/
def generateDescriptorWritten (env : IOEnv) (menv : MeshEnv)
    (features : List Feature) : Bool :=
  match generate_building_tileset env menv features with
  | Except.ok out => out.descriptorWritten
  | Except.error _ => false

/-- A file-system oracle where the directories and the descriptor can be
written but the tile file of row index 0 cannot. -/
def tileWriteFailEnv : IOEnv :=
  { mkdirOk := true, writeTile := fun i => i != 0, writeTilesetOk := true }

/-- A feature whose footprint ring `[(0,0), (1,1), (0,0)]` has only two
unique vertices after dropping the closing point (Scenario D). -/
def degenFeature : Feature :=
  { geom := Geom.poly ⟨[(0, 0), (1, 1), (0, 0)], true⟩
    heightParse := some 10, idAttr := none, nameAttr := none }

/-- A mesh-library oracle whose watertightness test always fails, so the
repair pass runs and the mesh stays non-watertight afterwards. -/
def noWaterMenv : MeshEnv :=
  { benignMenv with isWatertight := fun _ => false }

/-- Whether a call returned a value to its caller instead of propagating
an exception. -/
def returnsNormally {α : Type} (r : Except PyErr α) : Bool :=
  match r with
  | Except.ok _ => true
  | Except.error _ => false

theorem pyMin_le_of_mem {x : ℚ} {l : List ℚ} (hx : x ∈ l) : pyMin l ≤ x := by
  match l with
  | [] => cases hx
  | y :: ys =>
    show ys.foldl min y ≤ x
    have key : ∀ (zs : List ℚ) (a : ℚ), zs.foldl min a ≤ a ∧
        ∀ z ∈ zs, zs.foldl min a ≤ z := by
      intro zs
      induction zs with
      | nil => intro a; exact ⟨le_refl a, by intro z hz; cases hz⟩
      | cons b bs ih =>
        intro a
        constructor
        · exact le_trans (ih (min a b)).1 (min_le_left a b)
        · intro z hz
          rcases List.mem_cons.mp hz with h | h
          · subst h; exact le_trans (ih (min a z)).1 (min_le_right a z)
          · exact (ih (min a b)).2 z h
    rcases List.mem_cons.mp hx with h | h
    · subst h; exact (key ys x).1
    · exact (key ys y).2 x h

theorem le_pyMax_of_mem {x : ℚ} {l : List ℚ} (hx : x ∈ l) : x ≤ pyMax l := by
  match l with
  | [] => cases hx
  | y :: ys =>
    show x ≤ ys.foldl max y
    have key : ∀ (zs : List ℚ) (a : ℚ), a ≤ zs.foldl max a ∧
        ∀ z ∈ zs, z ≤ zs.foldl max a := by
      intro zs
      induction zs with
      | nil => intro a; exact ⟨le_refl a, by intro z hz; cases hz⟩
      | cons b bs ih =>
        intro a
        constructor
        · exact le_trans (le_max_left a b) (ih (max a b)).1
        · intro z hz
          rcases List.mem_cons.mp hz with h | h
          · subst h; exact le_trans (le_max_right a z) (ih (max a z)).1
          · exact (ih (max a b)).2 z h
    rcases List.mem_cons.mp hx with h | h
    · subst h; exact (key ys x).1
    · exact (key ys y).2 x h

theorem rootBox_minX (b : Box) (bs : List Box) :
    boxMinX (rootBox (b :: bs)) = pyMin ((b :: bs).map boxMinX) := by
  simp only [rootBox, boxMinX]
  ring

theorem rootBox_minY (b : Box) (bs : List Box) :
    boxMinY (rootBox (b :: bs)) = pyMin ((b :: bs).map boxMinY) := by
  simp only [rootBox, boxMinY]
  ring

theorem rootBox_minZ (b : Box) (bs : List Box) :
    boxMinZ (rootBox (b :: bs)) = pyMin ((b :: bs).map boxMinZ) := by
  simp only [rootBox, boxMinZ]
  ring

theorem rootBox_maxX (b : Box) (bs : List Box) :
    boxMaxX (rootBox (b :: bs)) = pyMax ((b :: bs).map boxMaxX) := by
  simp only [rootBox, boxMaxX]
  ring

theorem rootBox_maxY (b : Box) (bs : List Box) :
    boxMaxY (rootBox (b :: bs)) = pyMax ((b :: bs).map boxMaxY) := by
  simp only [rootBox, boxMaxY]
  ring

theorem rootBox_maxZ (b : Box) (bs : List Box) :
    boxMaxZ (rootBox (b :: bs)) = pyMax ((b :: bs).map boxMaxZ) := by
  simp only [rootBox, boxMaxZ]
  ring

theorem le_rootBox_ex {x b : Box} {bs : List Box} (hx : x ∈ b :: bs) :
    x.ex ≤ (rootBox (b :: bs)).ex := by
  have h1 : pyMin ((b :: bs).map boxMinX) ≤ boxMinX x :=
    pyMin_le_of_mem (List.mem_map_of_mem boxMinX hx)
  have h2 : boxMaxX x ≤ pyMax ((b :: bs).map boxMaxX) :=
    le_pyMax_of_mem (List.mem_map_of_mem boxMaxX hx)
  simp only [boxMinX, boxMaxX] at h1 h2
  simp only [rootBox]
  linarith

theorem le_rootBox_ey {x b : Box} {bs : List Box} (hx : x ∈ b :: bs) :
    x.ey ≤ (rootBox (b :: bs)).ey := by
  have h1 : pyMin ((b :: bs).map boxMinY) ≤ boxMinY x :=
    pyMin_le_of_mem (List.mem_map_of_mem boxMinY hx)
  have h2 : boxMaxY x ≤ pyMax ((b :: bs).map boxMaxY) :=
    le_pyMax_of_mem (List.mem_map_of_mem boxMaxY hx)
  simp only [boxMinY, boxMaxY] at h1 h2
  simp only [rootBox]
  linarith

theorem le_rootBox_ez {x b : Box} {bs : List Box} (hx : x ∈ b :: bs) :
    x.ez ≤ (rootBox (b :: bs)).ez := by
  have h1 : pyMin ((b :: bs).map boxMinZ) ≤ boxMinZ x :=
    pyMin_le_of_mem (List.mem_map_of_mem boxMinZ hx)
  have h2 : boxMaxZ x ≤ pyMax ((b :: bs).map boxMaxZ) :=
    le_pyMax_of_mem (List.mem_map_of_mem boxMaxZ hx)
  simp only [boxMinZ, boxMaxZ] at h1 h2
  simp only [rootBox]
  linarith

/-- C1: for every nonempty list of child bounding boxes, the root
bounding volume computed by the tileset assembler is the tight
axis-aligned box enclosing their union: on each axis its minimal
coordinate (center − half-extent) equals the minimum over the children
of (child center − child half-extent) and its maximal coordinate equals
the maximum over the children of (child center + child half-extent) —
the root center and half-extent being the midpoint and half the span by
the definition of `rootBox` — and consequently the root box contains
every child's box on every axis. -/
theorem root_box_is_tight_union (l : List Box) (hne : l ≠ []) :
    (boxMinX (rootBox l) = pyMin (l.map boxMinX) ∧
     boxMinY (rootBox l) = pyMin (l.map boxMinY) ∧
     boxMinZ (rootBox l) = pyMin (l.map boxMinZ) ∧
     boxMaxX (rootBox l) = pyMax (l.map boxMaxX) ∧
     boxMaxY (rootBox l) = pyMax (l.map boxMaxY) ∧
     boxMaxZ (rootBox l) = pyMax (l.map boxMaxZ)) ∧
    ∀ x ∈ l,
      boxMinX (rootBox l) ≤ boxMinX x ∧ boxMaxX x ≤ boxMaxX (rootBox l) ∧
      boxMinY (rootBox l) ≤ boxMinY x ∧ boxMaxY x ≤ boxMaxY (rootBox l) ∧
      boxMinZ (rootBox l) ≤ boxMinZ x ∧ boxMaxZ x ≤ boxMaxZ (rootBox l) := by
  match l, hne with
  | b :: bs, _ =>
    refine ⟨⟨rootBox_minX b bs, rootBox_minY b bs, rootBox_minZ b bs,
      rootBox_maxX b bs, rootBox_maxY b bs, rootBox_maxZ b bs⟩, ?_⟩
    intro x hx
    refine ⟨?_, ?_, ?_, ?_, ?_, ?_⟩
    · rw [rootBox_minX b bs]
      exact pyMin_le_of_mem (List.mem_map_of_mem boxMinX hx)
    · rw [rootBox_maxX b bs]
      exact le_pyMax_of_mem (List.mem_map_of_mem boxMaxX hx)
    · rw [rootBox_minY b bs]
      exact pyMin_le_of_mem (List.mem_map_of_mem boxMinY hx)
    · rw [rootBox_maxY b bs]
      exact le_pyMax_of_mem (List.mem_map_of_mem boxMaxY hx)
    · rw [rootBox_minZ b bs]
      exact pyMin_le_of_mem (List.mem_map_of_mem boxMinZ hx)
    · rw [rootBox_maxZ b bs]
      exact le_pyMax_of_mem (List.mem_map_of_mem boxMaxZ hx)

/-- Witness for C1 at the two disjoint boxes of the spec's Scenario C. -/
theorem root_box_is_tight_union_witness :
    ([(⟨5, 5, 10, 5, 5, 10⟩ : Box), ⟨25, 25, 5, 2, 3, 5⟩] ≠ []) ∧
    ∀ x ∈ [(⟨5, 5, 10, 5, 5, 10⟩ : Box), ⟨25, 25, 5, 2, 3, 5⟩],
      boxMinX (rootBox [⟨5, 5, 10, 5, 5, 10⟩, ⟨25, 25, 5, 2, 3, 5⟩]) ≤ boxMinX x ∧
      boxMaxX x ≤ boxMaxX (rootBox [⟨5, 5, 10, 5, 5, 10⟩, ⟨25, 25, 5, 2, 3, 5⟩]) ∧
      boxMinY (rootBox [⟨5, 5, 10, 5, 5, 10⟩, ⟨25, 25, 5, 2, 3, 5⟩]) ≤ boxMinY x ∧
      boxMaxY x ≤ boxMaxY (rootBox [⟨5, 5, 10, 5, 5, 10⟩, ⟨25, 25, 5, 2, 3, 5⟩]) ∧
      boxMinZ (rootBox [⟨5, 5, 10, 5, 5, 10⟩, ⟨25, 25, 5, 2, 3, 5⟩]) ≤ boxMinZ x ∧
      boxMaxZ x ≤ boxMaxZ (rootBox [⟨5, 5, 10, 5, 5, 10⟩, ⟨25, 25, 5, 2, 3, 5⟩]) :=
  ⟨by decide,
   (root_box_is_tight_union [⟨5, 5, 10, 5, 5, 10⟩, ⟨25, 25, 5, 2, 3, 5⟩]
     (by decide)).2⟩

/-- C2: for every run producing a nonempty set of child tiles, the root
geometric error (twice the root box half-diagonal, line 380) is strictly
greater than every child's geometric error (a tenth of the footprint's
planar diagonal with the `1.0` fallback, lines 334-335) — hence at least
the maximum of the children's errors — and every child's geometric error
is strictly positive.  The hypotheses state what the pipeline guarantees
for every child that is actually produced: the bounds are ordered
(shapely `bounds` returns min/max), the height passed the strict
positivity guard of line 272, and the footprint has a nondegenerate
planar extent (a shapely-valid polygon has positive area, so both spans
are positive; only one is needed here). -/
theorem root_geometric_error_dominates (cs : List ChildSrc)
    (hle : ∀ c ∈ cs, c.minx ≤ c.maxx ∧ c.miny ≤ c.maxy)
    (hpos : ∀ c ∈ cs, 0 < c.h)
    (hnd : ∀ c ∈ cs, c.minx < c.maxx ∨ c.miny < c.maxy) :
    ∀ c ∈ cs, 0 < childGeometricError c ∧
      childGeometricError c < rootGeometricError (cs.map childBox) := by
  intro c hc
  match cs, hc with
  | c0 :: cs0, hc =>
    set dx : ℝ := (c.maxx : ℝ) - (c.minx : ℝ) with hdx
    set dy : ℝ := (c.maxy : ℝ) - (c.miny : ℝ) with hdy
    have hSpos : (0 : ℝ) < dx ^ 2 + dy ^ 2 := by
      rcases hnd c hc with h | h
      · have hdxpos : (0 : ℝ) < dx := by
          rw [hdx]; rw [sub_pos]; exact_mod_cast h
        exact add_pos_of_pos_of_nonneg (pow_pos hdxpos 2) (sq_nonneg dy)
      · have hdypos : (0 : ℝ) < dy := by
          rw [hdy]; rw [sub_pos]; exact_mod_cast h
        exact add_pos_of_nonneg_of_pos (sq_nonneg dx) (pow_pos hdypos 2)
    have hraw : 0 < childGeRaw c := by
      rw [childGeRaw]
      exact div_pos (Real.sqrt_pos.mpr hSpos) (by norm_num)
    have hge : childGeometricError c = childGeRaw c := by
      rw [childGeometricError, if_pos hraw]
    have hmem : childBox c ∈ childBox c0 :: cs0.map childBox := by
      have := List.mem_map_of_mem childBox hc
      simpa using this
    have hex : (childBox c).ex ≤ (rootBox ((c0 :: cs0).map childBox)).ex := by
      have := @le_rootBox_ex (childBox c) (childBox c0) (cs0.map childBox) hmem
      simpa using this
    have hey : (childBox c).ey ≤ (rootBox ((c0 :: cs0).map childBox)).ey := by
      have := @le_rootBox_ey (childBox c) (childBox c0) (cs0.map childBox) hmem
      simpa using this
    have hez : (childBox c).ez ≤ (rootBox ((c0 :: cs0).map childBox)).ez := by
      have := @le_rootBox_ez (childBox c) (childBox c0) (cs0.map childBox) hmem
      simpa using this
    set r := rootBox ((c0 :: cs0).map childBox) with hr
    have hcex : (childBox c).ex = (c.maxx - c.minx) / 2 := rfl
    have hcey : (childBox c).ey = (c.maxy - c.miny) / 2 := rfl
    have hcez : (childBox c).ez = c.h / 2 := rfl
    have hexR : dx / 2 ≤ (r.ex : ℝ) := by
      rw [hdx]
      have h0 : ((c.maxx - c.minx) / 2 : ℚ) ≤ r.ex := by rw [← hcex]; exact hex
      exact_mod_cast h0
    have heyR : dy / 2 ≤ (r.ey : ℝ) := by
      rw [hdy]
      have h0 : ((c.maxy - c.miny) / 2 : ℚ) ≤ r.ey := by rw [← hcey]; exact hey
      exact_mod_cast h0
    have hhR : (c.h : ℝ) / 2 ≤ (r.ez : ℝ) := by
      have h0 : ((c.h / 2 : ℚ)) ≤ r.ez := by rw [← hcez]; exact hez
      exact_mod_cast h0
    have hdxnn : (0 : ℝ) ≤ dx / 2 := by
      rw [hdx]
      have h0 : ((c.minx : ℝ)) ≤ (c.maxx : ℝ) := by exact_mod_cast (hle c hc).1
      linarith
    have hdynn : (0 : ℝ) ≤ dy / 2 := by
      rw [hdy]
      have h0 : ((c.miny : ℝ)) ≤ (c.maxy : ℝ) := by exact_mod_cast (hle c hc).2
      linarith
    have hhpos : (0 : ℝ) < (c.h : ℝ) := by exact_mod_cast hpos c hc
    have hE2 : (dx / 2) ^ 2 + (dy / 2) ^ 2 + ((c.h : ℝ) / 2) ^ 2 ≤
        (r.ex : ℝ) ^ 2 + (r.ey : ℝ) ^ 2 + (r.ez : ℝ) ^ 2 := by
      have h1 : (dx / 2) ^ 2 ≤ (r.ex : ℝ) ^ 2 := pow_le_pow_left₀ hdxnn hexR 2
      have h2 : (dy / 2) ^ 2 ≤ (r.ey : ℝ) ^ 2 := pow_le_pow_left₀ hdynn heyR 2
      have h3 : ((c.h : ℝ) / 2) ^ 2 ≤ (r.ez : ℝ) ^ 2 :=
        pow_le_pow_left₀ (by linarith) hhR 2
      linarith
    have hrootGE : rootGeometricError ((c0 :: cs0).map childBox) =
        Real.sqrt ((r.ex : ℝ) ^ 2 + (r.ey : ℝ) ^ 2 + (r.ez : ℝ) ^ 2) * 2 := by
      rw [hr]
      simp only [List.map_cons, rootGeometricError]
    have hEnn : (0 : ℝ) ≤ (r.ex : ℝ) ^ 2 + (r.ey : ℝ) ^ 2 + (r.ez : ℝ) ^ 2 := by
      positivity
    have hsq : (childGeRaw c) ^ 2 <
        (Real.sqrt ((r.ex : ℝ) ^ 2 + (r.ey : ℝ) ^ 2 + (r.ez : ℝ) ^ 2) * 2) ^ 2 := by
      rw [childGeRaw]
      rw [div_pow, mul_pow, Real.sq_sqrt hSpos.le, Real.sq_sqrt hEnn]
      have hq : dx ^ 2 + dy ^ 2 <
          4 * ((r.ex : ℝ) ^ 2 + (r.ey : ℝ) ^ 2 + (r.ez : ℝ) ^ 2) := by
        nlinarith [hE2, hhpos, hSpos]
      nlinarith [hSpos, hq]
    have hlt : childGeRaw c <
        Real.sqrt ((r.ex : ℝ) ^ 2 + (r.ey : ℝ) ^ 2 + (r.ez : ℝ) ^ 2) * 2 :=
      lt_of_pow_lt_pow_left₀ 2 (by positivity) hsq
    refine ⟨by rw [hge]; exact hraw, ?_⟩
    rw [hge, hrootGE]
    exact hlt

/-- Witness for C2 at the single child of the spec's Scenario A
(square footprint `(0,0)-(10,10)`, height 20). -/
theorem root_geometric_error_dominates_witness :
    (∀ c ∈ [(⟨0, 0, 0, 10, 10, 20⟩ : ChildSrc)], c.minx ≤ c.maxx ∧ c.miny ≤ c.maxy) ∧
    (∀ c ∈ [(⟨0, 0, 0, 10, 10, 20⟩ : ChildSrc)], 0 < c.h) ∧
    (∀ c ∈ [(⟨0, 0, 0, 10, 10, 20⟩ : ChildSrc)], c.minx < c.maxx ∨ c.miny < c.maxy) ∧
    (0 < childGeometricError ⟨0, 0, 0, 10, 10, 20⟩ ∧
      childGeometricError ⟨0, 0, 0, 10, 10, 20⟩ <
        rootGeometricError ([(⟨0, 0, 0, 10, 10, 20⟩ : ChildSrc)].map childBox)) :=
  ⟨by decide, by decide, by decide,
   root_geometric_error_dominates [⟨0, 0, 0, 10, 10, 20⟩]
     (by decide) (by decide) (by decide) ⟨0, 0, 0, 10, 10, 20⟩ (by decide)⟩

theorem generateSuccess_eq (env : IOEnv) (menv : MeshEnv) (fs : List Feature) :
    generateSuccess env menv fs = (env.mkdirOk && env.writeTilesetOk) := by
  cases hmk : env.mkdirOk with
  | false => simp [generateSuccess, generate_building_tileset, hmk]
  | true =>
    cases hwt : env.writeTilesetOk with
    | false => simp [generateSuccess, generate_building_tileset, hmk, hwt]
    | true => simp [generateSuccess, generate_building_tileset, hmk, hwt]

theorem generateDescriptorWritten_eq (env : IOEnv) (menv : MeshEnv) (fs : List Feature) :
    generateDescriptorWritten env menv fs = (env.mkdirOk && env.writeTilesetOk) := by
  cases hmk : env.mkdirOk with
  | false => simp [generateDescriptorWritten, generate_building_tileset, hmk]
  | true =>
    cases hwt : env.writeTilesetOk with
    | false => simp [generateDescriptorWritten, generate_building_tileset, hmk, hwt]
    | true => simp [generateDescriptorWritten, generate_building_tileset, hmk, hwt]

theorem generateRootBox_eq (env : IOEnv) (menv : MeshEnv) (fs : List Feature)
    (hmk : env.mkdirOk = true) (hwt : env.writeTilesetOk = true) :
    generateRootBox env menv fs =
      some (rootBox ((generateChildren env menv fs).map childBox)) := by
  simp [generateRootBox, generateChildren, generate_building_tileset, hmk, hwt]

/-- C5: the child tile's axis-aligned bounding volume is built from the
footprint's planar bounds and the `[0, height]` vertical interval exactly
as lines 311-328 compute it — center at the bounds' midpoint and at
`height / 2`, half-extents at half the planar spans and `height / 2` —
and in particular the full pipeline run of the spec's Scenario A (the
single square footprint `(0,0)-(0,10)-(10,10)-(10,0)` with height 20)
produces exactly one child whose box, and hence the root box recorded in
the descriptor, has center `(5, 5, 10)` and half-extents `(5, 5, 10)`. -/
theorem child_box_formula_and_scenario_a :
    (∀ c : ChildSrc, childBox c =
      ⟨(c.minx + c.maxx) / 2, (c.miny + c.maxy) / 2, c.h / 2,
       (c.maxx - c.minx) / 2, (c.maxy - c.miny) / 2, c.h / 2⟩) ∧
    generateChildren benignEnv benignMenv [squareFeature 20] =
      [⟨0, 0, 0, 10, 10, 20⟩] ∧
    childBox ⟨0, 0, 0, 10, 10, 20⟩ = ⟨5, 5, 10, 5, 5, 10⟩ ∧
    generateRootBox benignEnv benignMenv [squareFeature 20] =
      some ⟨5, 5, 10, 5, 5, 10⟩ := by
  have hchild : generateChildren benignEnv benignMenv [squareFeature 20] =
      [⟨0, 0, 0, 10, 10, 20⟩] := by decide
  have hbox : childBox ⟨0, 0, 0, 10, 10, 20⟩ = ⟨5, 5, 10, 5, 5, 10⟩ := by
    norm_num [childBox]
  refine ⟨fun _ => rfl, hchild, hbox, ?_⟩
  rw [generateRootBox_eq _ _ _ rfl rfl, hchild]
  simp only [List.map_cons, List.map_nil, hbox]
  norm_num [rootBox, pyMin, pyMax, boxMinX, boxMinY, boxMinZ, boxMaxX, boxMaxY,
    boxMaxZ]

/-- C3 counterexample: the claim says an I/O failure writing a file is
batch-fatal, but in this run the write of the first feature's tile file
fails and the assembler still returns success, having skipped that
feature (inner `try/except` with `continue`, lines 297-303) and written
only the second feature's tile. -/
theorem io_failure_claim_counterexample :
    generateSuccess tileWriteFailEnv benignMenv
      [squareFeature 20, squareFeature2 15] = true ∧
    generateTiles tileWriteFailEnv benignMenv
      [squareFeature 20, squareFeature2 15] = [1] := by
  decide

/-- C3 (amended): the assembler returns failure exactly when the output
directories cannot be created or the descriptor cannot be written — a
failure writing an individual tile file only skips that feature — and
the descriptor is written exactly in the success case, regardless of how
many features were skipped. -/
theorem assembler_failure_iff_mkdir_or_descriptor (env : IOEnv) (menv : MeshEnv)
    (fs : List Feature) :
    generateSuccess env menv fs = (env.mkdirOk && env.writeTilesetOk) ∧
    generateDescriptorWritten env menv fs = (env.mkdirOk && env.writeTilesetOk) :=
  ⟨generateSuccess_eq env menv fs, generateDescriptorWritten_eq env menv fs⟩

/-- C7: whenever a run produces zero children (empty input table or all
features skipped) and the file system cooperates, the assembler still
writes a structurally valid descriptor with the synthesized default unit
box at the origin and the default geometric error 100, and returns
success. -/
theorem empty_children_default_tileset (env : IOEnv) (menv : MeshEnv) (fs : List Feature)
    (hmk : env.mkdirOk = true) (hwt : env.writeTilesetOk = true)
    (hzero : generateChildren env menv fs = []) :
    generateSuccess env menv fs = true ∧
    generateDescriptorWritten env menv fs = true ∧
    generateRootBox env menv fs = some ⟨0, 0, 0, 1, 1, 1⟩ ∧
    rootGeometricError ((generateChildren env menv fs).map childBox) = 100 := by
  refine ⟨?_, ?_, ?_, ?_⟩
  · rw [generateSuccess_eq, hmk, hwt]; rfl
  · rw [generateDescriptorWritten_eq, hmk, hwt]; rfl
  · rw [generateRootBox_eq _ _ _ hmk hwt, hzero]; rfl
  · rw [hzero]; rfl

/-- Witness for C7 at the spec's Scenario B: the square footprint with
height 0 is skipped, zero children are produced, the descriptor is still
written with the default box. -/
theorem empty_children_default_tileset_witness :
    (benignEnv.mkdirOk = true) ∧ (benignEnv.writeTilesetOk = true) ∧
    (generateChildren benignEnv benignMenv [squareFeature 0] = []) ∧
    (generateSuccess benignEnv benignMenv [squareFeature 0] = true ∧
     generateDescriptorWritten benignEnv benignMenv [squareFeature 0] = true ∧
     generateRootBox benignEnv benignMenv [squareFeature 0] = some ⟨0, 0, 0, 1, 1, 1⟩ ∧
     rootGeometricError ((generateChildren benignEnv benignMenv
       [squareFeature 0]).map childBox) = 100) :=
  ⟨rfl, rfl, by decide,
   empty_children_default_tileset benignEnv benignMenv [squareFeature 0] rfl rfl
     (by decide)⟩

/-- C4 (amended): for every footprint that passes the geometry checks
(which precede the height check) and every height that compares `<= 0`
under IEEE semantics — zero, negative finite values and `-inf` — the
mesh builder rejects with the invalid-height rejection without clamping,
and the assembler writes no tile file and produces no child for a
feature whose parsed height is non-positive.  NaN and `+inf` heights are
not covered: they pass the `height <= 0` guard (see the
counterexample). -/
theorem nonpositive_height_rejected (menv : MeshEnv) (p : PolyG) (h : FVal)
    (attrs : List (String × AttrVal))
    (hv : p.valid = true) (h0 : fle h (FVal.fin 0) = true) :
    create_glb_from_building menv (Geom.poly p) h attrs =
      Except.ok ⟨GlbResult.rejected Rejection.invalidHeight, 0, 0, false⟩ ∧
    ∀ (env : IOEnv) (menv2 : MeshEnv) (i : ℕ) (f : Feature) (q : ℚ),
      f.heightParse = some q → q ≤ 0 →
      processFeature env menv2 i f = (none, none) := by
  constructor
  · simp [create_glb_from_building, hv, h0]
  · intro env menv2 i f q hq hq0
    simp [processFeature, hq, hq0]

/-- Witness for C4 (amended) at height −5 for the builder and height 0
for the assembler step. -/
theorem nonpositive_height_rejected_witness :
    ((⟨squareRing, true⟩ : PolyG).valid = true) ∧
    (fle (FVal.fin (-5)) (FVal.fin 0) = true) ∧
    create_glb_from_building benignMenv (Geom.poly ⟨squareRing, true⟩)
      (FVal.fin (-5)) [] =
      Except.ok ⟨GlbResult.rejected Rejection.invalidHeight, 0, 0, false⟩ ∧
    processFeature benignEnv benignMenv 0 (squareFeature 0) = (none, none) :=
  ⟨rfl, by decide,
   (nonpositive_height_rejected benignMenv ⟨squareRing, true⟩ (FVal.fin (-5)) []
     rfl (by decide)).1,
   (nonpositive_height_rejected benignMenv ⟨squareRing, true⟩ (FVal.fin (-5)) []
     rfl (by decide)).2 benignEnv benignMenv 0 (squareFeature 0) 0 rfl (by norm_num)⟩

/-- C4 counterexample: the claim says every non-finite height is rejected
with the invalid-height rejection, but `NaN <= 0` and `inf <= 0` are both
false in IEEE comparison, so both heights pass the guard of line 47 and
the builder produces GLB bytes instead of rejecting. -/
theorem invalid_height_claim_counterexample :
    producedGlb (create_glb_from_building benignMenv squareGeom FVal.nan []) = true ∧
    rejectionOf (create_glb_from_building benignMenv squareGeom FVal.nan []) = none ∧
    producedGlb (create_glb_from_building benignMenv squareGeom FVal.inf []) = true ∧
    rejectionOf (create_glb_from_building benignMenv squareGeom FVal.inf []) = none := by
  decide

/-- C6: a footprint whose ring retains fewer than 3 unique vertices after
dropping the duplicate closing point is rejected by the mesh builder
(line 55's too-few-points rejection, before any triangulation), and a
batch containing such a feature still succeeds and processes the
remaining valid features (Scenario D: the degenerate two-vertex feature
is skipped, the valid square becomes the single child and tile). -/
theorem too_few_unique_vertices_skipped (menv : MeshEnv) (p : PolyG) (h : FVal)
    (attrs : List (String × AttrVal))
    (hv : p.valid = true) (hh : fle h (FVal.fin 0) = false)
    (hfew : p.ring.dropLast.length < 3) :
    create_glb_from_building menv (Geom.poly p) h attrs =
      Except.ok ⟨GlbResult.rejected Rejection.tooFewPoints, 0, 0, false⟩ ∧
    generateSuccess benignEnv benignMenv [degenFeature, squareFeature 20] = true ∧
    generateChildren benignEnv benignMenv [degenFeature, squareFeature 20] =
      [⟨1, 0, 0, 10, 10, 20⟩] ∧
    generateTiles benignEnv benignMenv [degenFeature, squareFeature 20] = [1] := by
  have hlen : p.ring.length < 4 := by
    rw [List.length_dropLast] at hfew
    omega
  refine ⟨?_, by decide, by decide, by decide⟩
  simp [create_glb_from_building, hv, hh, hlen]

/-- Witness for C6 at the two-unique-vertex ring `[(0,0),(1,1),(0,0)]`. -/
theorem too_few_unique_vertices_skipped_witness :
    ((⟨[(0, 0), (1, 1), (0, 0)], true⟩ : PolyG).valid = true) ∧
    (fle (FVal.fin 10) (FVal.fin 0) = false) ∧
    ((⟨[(0, 0), (1, 1), (0, 0)], true⟩ : PolyG).ring.dropLast.length < 3) ∧
    create_glb_from_building benignMenv (Geom.poly ⟨[(0, 0), (1, 1), (0, 0)], true⟩)
      (FVal.fin 10) [] =
      Except.ok ⟨GlbResult.rejected Rejection.tooFewPoints, 0, 0, false⟩ :=
  ⟨rfl, by decide, by decide,
   (too_few_unique_vertices_skipped benignMenv ⟨[(0, 0), (1, 1), (0, 0)], true⟩
     (FVal.fin 10) [] rfl (by decide) (by decide)).1⟩

/-- C8 counterexample: on a run where the mesh is not watertight and the
single repair pass does not fix it, the builder runs exactly one repair
pass, logs the diagnostic and still returns GLB bytes — but it attaches
no `approximate` flag to the solid: its metadata holds exactly the
caller's attribute keys, so the claim's "flagging the solid as
approximate" is false of the code (the log line is the only signal). -/
theorem approximate_flag_counterexample :
    producedGlb (create_glb_from_building noWaterMenv squareGeom (FVal.fin 20)
      [("id", AttrVal.s "B1")]) = true ∧
    fillCallsOf (create_glb_from_building noWaterMenv squareGeom (FVal.fin 20)
      [("id", AttrVal.s "B1")]) = some 1 ∧
    warnedOf (create_glb_from_building noWaterMenv squareGeom (FVal.fin 20)
      [("id", AttrVal.s "B1")]) = some true ∧
    metadataKeys (create_glb_from_building noWaterMenv squareGeom (FVal.fin 20)
      [("id", AttrVal.s "B1")]) = some ["id"] ∧
    ((metadataKeys (create_glb_from_building noWaterMenv squareGeom (FVal.fin 20)
      [("id", AttrVal.s "B1")])).getD []).contains "approximate" = false := by
  decide

/-- C8 (amended): for every valid footprint and positive height with a
successful triangulation and export, the builder checks closure on the
assembled solid, runs exactly one hole-filling repair pass when the check
fails and none otherwise, logs the line-124 diagnostic exactly when the
mesh is still not watertight after the repair pass, and returns GLB
bytes in every case (never hard-fails on a non-watertight mesh); no
`approximate` flag is set on the solid — the diagnostic log is the only
signal (see the counterexample). -/
theorem watertight_repair_flow (menv : MeshEnv) (p : PolyG) (h : FVal)
    (attrs : List (String × AttrVal)) (tris : List Tri)
    (hv : p.valid = true) (hh : fle h (FVal.fin 0) = false)
    (hlen : 4 ≤ p.ring.length)
    (htri : menv.triangulate p.ring.dropLast = Except.ok tris)
    (hexp : ∀ m, menv.exportRaises m = none) :
    producedGlb (create_glb_from_building menv (Geom.poly p) h attrs) = true ∧
    fillCallsOf (create_glb_from_building menv (Geom.poly p) h attrs) =
      some (if menv.isWatertight (assembledMesh p.ring.dropLast h tris)
        then 0 else 1) ∧
    warnedOf (create_glb_from_building menv (Geom.poly p) h attrs) =
      some (!menv.isWatertight (assembledMesh p.ring.dropLast h tris) &&
        !menv.isWatertight (menv.fillHoles (assembledMesh p.ring.dropLast h tris))) := by
  have h4 : ¬ p.ring.length < 4 := by omega
  have h3 : ¬ p.ring.dropLast.length < 3 := by
    rw [List.length_dropLast]
    omega
  have h3b : ¬ p.ring.length - 1 < 3 := by omega
  cases hw : menv.isWatertight (assembledMesh p.ring.dropLast h tris) with
  | true =>
    simp [create_glb_from_building, producedGlb, resultOf, fillCallsOf, warnedOf,
      hv, hh, h4, h3, h3b, htri, hexp, repairWatertight, hw]
  | false =>
    simp [create_glb_from_building, producedGlb, resultOf, fillCallsOf, warnedOf,
      hv, hh, h4, h3, h3b, htri, hexp, repairWatertight, hw]

/-- Witness for C8 (amended) with the always-non-watertight oracle on
the square footprint: one repair pass, diagnostic logged, bytes
returned. -/
theorem watertight_repair_flow_witness :
    ((⟨squareRing, true⟩ : PolyG).valid = true) ∧
    (fle (FVal.fin 20) (FVal.fin 0) = false) ∧
    (4 ≤ (⟨squareRing, true⟩ : PolyG).ring.length) ∧
    (noWaterMenv.triangulate squareRing.dropLast = Except.ok [(0, 1, 2), (0, 2, 3)]) ∧
    producedGlb (create_glb_from_building noWaterMenv (Geom.poly ⟨squareRing, true⟩)
      (FVal.fin 20) []) = true :=
  ⟨rfl, by decide, by decide, rfl,
   (watertight_repair_flow noWaterMenv ⟨squareRing, true⟩ (FVal.fin 20) []
     [(0, 1, 2), (0, 2, 3)] rfl (by decide) (by decide) rfl (fun _ => rfl)).1⟩

/-- C9: the two public entry points are total at their interface — for
every input and every oracle behaviour the mesh builder returns a value
(GLB bytes or a rejection) and the assembler returns a boolean, neither
ever propagating an exception: the guard region performs no raisable
operation and the `try/except` blocks of lines 148 and 398 catch
everything raised inside the bodies. -/
theorem interface_total_no_exception :
    (∀ (menv : MeshEnv) (g : Geom) (h : FVal) (attrs : List (String × AttrVal)),
      returnsNormally (create_glb_from_building menv g h attrs) = true) ∧
    (∀ (env : IOEnv) (menv : MeshEnv) (fs : List Feature),
      returnsNormally (generate_building_tileset env menv fs) = true) := by
  constructor
  · intro menv g h attrs
    cases g with
    | nonPoly => rfl
    | poly p =>
      unfold create_glb_from_building
      repeat' split
      all_goals rfl
  · intro env menv fs
    unfold generate_building_tileset
    repeat' split
    all_goals rfl

/-- C10: a geometry that is not a shapely Polygon, and a polygon whose
`is_valid` check fails, are each rejected by the mesh builder before any
vertex or face generation takes place (the outcome records zero
triangulation calls and carries no mesh). -/
theorem non_polygon_rejected_before_geometry (menv : MeshEnv) (h : FVal)
    (attrs : List (String × AttrVal)) :
    create_glb_from_building menv Geom.nonPoly h attrs =
      Except.ok ⟨GlbResult.rejected Rejection.notAPolygon, 0, 0, false⟩ ∧
    ∀ p : PolyG, p.valid = false →
      create_glb_from_building menv (Geom.poly p) h attrs =
        Except.ok ⟨GlbResult.rejected Rejection.invalidGeometry, 0, 0, false⟩ := by
  constructor
  · rfl
  · intro p hv
    simp [create_glb_from_building, hv]

/-- Witness for C10 at an invalid square polygon. -/
theorem non_polygon_rejected_before_geometry_witness :
    ((⟨squareRing, false⟩ : PolyG).valid = false) ∧
    create_glb_from_building benignMenv (Geom.poly ⟨squareRing, false⟩)
      (FVal.fin 10) [] =
      Except.ok ⟨GlbResult.rejected Rejection.invalidGeometry, 0, 0, false⟩ :=
  ⟨rfl, (non_polygon_rejected_before_geometry benignMenv (FVal.fin 10) []).2
    ⟨squareRing, false⟩ rfl⟩
